import Mathlib

/-!
Verification of the bridge-PSCI FEM automation package.

Shallow embedding of the configuration layer (`src/bridge_psci/config.py`),
the model builder (`src/bridge_psci/model/builder.py`), the modal driver
(`src/bridge_psci/analysis/modal.py`) and the moving-load engine
(`src/bridge_psci/analysis/moving_load.py`).  Machine floats are modelled
by exact rationals; Python exceptions by an error monad.
-/

namespace BridgePsci

/-- Python exception kinds relevant to the embedded code paths. -/
inductive PyErr
  | nameError (n : String)
  | keyError (k : String)
  | typeError (k : String)
  | valueError (s : String)
  | indexError
  | attributeError (a : String)
  /-- Collapses code regions beyond the modelled prefix: solver-side
  construction that is unreachable because an earlier lookup always fails,
  and the girder-count-below-one branch, on which the source continues
  into deck/barrier construction and then fails at `node_array[0]`
  (builder.py:667). -/
  | laterFailure
  deriving DecidableEq, Repr

/-- Values stored in the parameter dict: scalars, 1-D numeric lists,
2-D numeric tables (numpy arrays), and strings. -/
inductive Val
  | num (q : ℚ)
  | numList (l : List ℚ)
  | table (t : List (List ℚ))
  | str (s : String)
  deriving DecidableEq, Repr

/-- A Python dict modelled as an association list; the first binding of a
key wins, so `dict.update` / item assignment is modelled by prepending. -/
abbrev Params := List (String × Val)

/-- Dictionary lookup: `p.get(k)` as an option. -/
def lookupParam (p : Params) (k : String) : Option Val :=
  (p.find? (fun kv => kv.1 == k)).map (fun kv => kv.2)

/- ------------------------------------------------------------------
config.py — `_default_params`, `CASE_OVERRIDES`, `make_params`
------------------------------------------------------------------ -/

/-- Spring constant `consts = 1e9 / 1e3` (config.py:31). -/
def consts : ℚ := 1000000

/-- Spring constant `consts1 = 80000` (config.py:32). -/
def consts1 : ℚ := 80000

/-- Spring constant `consts_crack = 1e9 / 1e4` (config.py:33). -/
def constsCrack : ℚ := 100000

/-- Rows `A1_B1 .. A1_B6` (config.py:35-40 and 142-147): the abutment-1
block of the bearing-stiffness table before scaling. -/
def A1rows : List (List ℚ) :=
  [ [0, consts1, consts, 0, 0, 0]
  , [0, consts1, consts, 0, 0, 0]
  , [0, consts1, constsCrack, 0, 0, 0]
  , [0, consts1, constsCrack, 0, 0, 0]
  , [0, consts1, constsCrack, 0, 0, 0]
  , [0, consts1, consts, 0, 0, 0] ]

/-- Rows `A2_B1 .. A2_B6` (config.py:42-47 and 149-154): the abutment-2
block of the bearing-stiffness table; never scaled by the multiplier. -/
def A2rows : List (List ℚ) :=
  [ [consts1, 0, constsCrack, 0, 0, 0]
  , [consts1, 0, consts, 0, 0, 0]
  , [consts1, 0, constsCrack, 0, 0, 0]
  , [consts1, 0, constsCrack, 0, 0, 0]
  , [consts1, 0, constsCrack, 0, 0, 0]
  , [consts1, consts1, consts, 0, 0, 0] ]

/-- Elementwise scaling of a table, `np.vstack(...) * m`. -/
def scaleTable (t : List (List ℚ)) (m : ℚ) : List (List ℚ) :=
  t.map (fun row => row.map (fun x => x * m))

/-- The 12x6 bearing table built both in `_default_params` (config.py:50-52,
multiplier 0.3) and in the `make_params` rebuild (config.py:156-158):
`vstack(A1) * bm` stacked on the unscaled `vstack(A2)`. -/
def bearingStiffness (bm : ℚ) : List (List ℚ) :=
  scaleTable A1rows bm ++ A2rows

/-- Parameter dict produced by `_default_params()` (config.py:26-88) merged
over `get_default_base_params()` (defaults_base.py:19).  Only the keys read
by the embedded code paths are listed; unread keys are omitted.  Note that
`girder_spacing` is the one-element list `[2.08]` in `DEFAULT_BASE_PARAMS`. -/
def defaultParams : Params :=
  [ ("Bridge_width", .num (25 / 2))
  , ("Bridge_skew", .num 36)
  , ("girder_number", .num 6)
  , ("Left_Cantilever", .num (21 / 20))
  , ("Right_Cantilever", .num (21 / 20))
  , ("girder_spacing", .numList [52 / 25])
  , ("gravity", .num (981 / 100))
  , ("girder_H", .num 2000)
  , ("girder_length", .num 29600)
  , ("number_tendon", .num 4)
  , ("z_coef_list", .numList [1500, 1086, 700, 294])
  , ("z_intercept_list", .numList [200, 80, 80, 80])
  , ("y_coef_list", .numList [0, 0, 0, 0])
  , ("y_intercept_list", .numList [0, 0, -150, 150])
  , ("tendon_horizontal_length", .num 14800)
  , ("Ep", .num 200000)
  , ("Ap_N", .numList [15081 / 25, 15081 / 25, 15081 / 25, 15081 / 25])
  , ("b1", .num 700), ("b2", .num 240), ("b3", .num 220)
  , ("b4", .num 230), ("b5", .num 680)
  , ("h1", .num 170), ("h2", .num 200), ("h3", .num 1600)
  , ("h4", .num 200), ("h5", .num 230)
  , ("Ag", .num 721400)
  , ("E_girder1", .numList (List.replicate 12 28000))
  , ("E_girder2", .numList (List.replicate 12 28000))
  , ("E_deck1", .numList (List.replicate 7 25000))
  , ("E_deck2", .numList (List.replicate 7 25000))
  , ("thickness1", .numList (List.replicate 8 250))
  , ("thickness2", .numList (List.replicate 8 250))
  , ("Bearing_Stiffness", .table (bearingStiffness (3 / 10)))
  , ("bearing_multiplier", .num (3 / 10))
  , ("consts1", .num consts1)
  , ("consts_crack", .num constsCrack)
  , ("load", .num (-145000))
  , ("PE", .num 600)
  , ("diaphragm1_Ec", .numList (List.replicate 5 24000))
  , ("diaphragm2_Ec", .numList (List.replicate 5 24000))
  , ("pave_thick", .numList [80])
  , ("numEigen", .num 3)
  , ("zeta", .num (15 / 1000))
  , ("dt", .num (1 / 10))
  , ("velocity_kmh", .num 10)
  , ("girder3_start_tag", .num 3001)
  , ("girder4_start_tag", .num 4001)
  , ("girder_n_nodes", .num 149) ]

/-- The `CASE_OVERRIDES` table (config.py:94-108); `none` for an unknown
case label. -/
def caseOverrides (case : String) : Option (List (String × Val)) :=
  if case == "baseline" then some []
  else if case == "case1" then some []
  else if case == "case2" then some [("bearing_multiplier", .num (1 / 2))]
  else if case == "case5" then
    some [("E_girder1", .numList [28000 * (7 / 10), 28000, 28000, 28000, 28000, 28000])]
  else if case == "case6" then
    some [("E_girder1", .numList [28000 * (1 / 2), 28000, 28000, 28000, 28000, 28000])]
  else if case == "case9" then some [("E_deck1", .str "deck_0.7")]
  else none

/-- Removal of a key from an override list (`overrides.pop`). -/
def removeKey (ov : List (String × Val)) (k : String) : List (String × Val) :=
  ov.filter (fun kv => kv.1 != k)

/-- The `make_params` function (config.py:111-163).  The case label is
assumed already normalised (the source applies `case.strip().lower()`
first).  The special `E_deck1 = "deck_0.7"` encoding becomes
`[25000 * 0.7] * (girder_number + 1)` with `girder_number = 6`; when
`bearing_multiplier` is overridden the bearing table is rebuilt from the
same row constants with the new multiplier and the key is popped before
the final `params.update(overrides)`. -/
def makeParams (case : String) : Except PyErr Params :=
  match caseOverrides case with
  | none => .error (.valueError case)
  | some ov =>
    let ov := if lookupParam ov "E_deck1" == some (.str "deck_0.7") then
        ("E_deck1", .numList (List.replicate 7 (25000 * (7 / 10)))) ::
          removeKey ov "E_deck1"
      else ov
    match lookupParam ov "bearing_multiplier" with
    | some (.num bm) =>
      let ov := removeKey ov "bearing_multiplier"
      .ok (ov ++ ("bearing_multiplier", .num bm) ::
            ("Bearing_Stiffness", .table (bearingStiffness bm)) :: defaultParams)
    | _ => .ok (ov ++ defaultParams)

/-- Parameter dict for a case label, empty on an unknown label. -/
def paramsOf (case : String) : Params :=
  match makeParams case with
  | .ok p => p
  | .error _ => []

/-- Reads a table-valued key out of a parameter dict. -/
def getTable (p : Params) (k : String) : List (List ℚ) :=
  match lookupParam p k with
  | some (.table t) => t
  | _ => []

/-- Entry `(r, c)` of the `Bearing_Stiffness` table of a case. -/
def bearingEntry (case : String) (r c : ℕ) : ℚ :=
  ((getTable (paramsOf case) "Bearing_Stiffness").getD r []).getD c 0

/- ------------------------------------------------------------------
builder.py — module namespace, `build_bridge_model`, `Analysis.girder`
------------------------------------------------------------------ -/

/-- Names bound at module level in builder.py: the dataclass/typing/math/
numpy/pandas/matplotlib imports (builder.py:13-37) and the three top-level
definitions.  `legacy_globals` is never imported, so none of the notebook
globals (`yt3`, `Ep`, `number_tendon`, `z_coef_list`, `y_coef_list`,
`girder1`, `girder_H`, ...) appear here. -/
def builderGlobals : List String :=
  [ "annotations", "dataclass", "Any", "Dict", "Optional", "math", "np"
  , "pd", "plt", "Polygon", "ops", "_OPENSEESPY_IMPORT_ERROR", "vfo"
  , "BuiltModel", "Analysis", "build_bridge_model" ]

/-- Resolution of a bare name against the builder module namespace; an
unbound name raises `NameError`. -/
def globalRef (n : String) : Except PyErr Unit :=
  if n ∈ builderGlobals then .ok () else .error (.nameError n)

/-- Conversion `float(v)` applied to a dict value (TypeError on non-scalars). -/
def pyFloat (k : String) (v : Val) : Except PyErr ℚ :=
  match v with
  | .num q => .ok q
  | _ => .error (.typeError k)

/-- Required scalar read `float(p[k])`: KeyError when missing. -/
def reqNum (p : Params) (k : String) : Except PyErr ℚ :=
  match lookupParam p k with
  | none => .error (.keyError k)
  | some v => pyFloat k v

/-- Defaulted scalar read `float(p.get(k, d))`. -/
def getNum (p : Params) (k : String) (d : ℚ) : Except PyErr ℚ :=
  match lookupParam p k with
  | none => .ok d
  | some v => pyFloat k v

/-- Defaulted list read `list(p.get(k, d))` (TypeError on a scalar value). -/
def getNumList (p : Params) (k : String) (d : List ℚ) : Except PyErr (List ℚ) :=
  match lookupParam p k with
  | none => .ok d
  | some (.numList l) => .ok l
  | some _ => .error (.typeError k)

/-- Python `int()` on a rational: truncation toward zero. -/
def truncQ (q : ℚ) : ℤ :=
  if 0 ≤ q then ⌊q⌋ else ⌈q⌉

/-- Required integer read `int(p[k])`. -/
def reqInt (p : Params) (k : String) : Except PyErr ℤ := do
  let q ← reqNum p k
  pure (truncQ q)

/-- The parameter-unpacking prefix of `build_bridge_model`
(builder.py:616-638), in source order; returns `girder_number` and
`E_girder1`.  The `Bearing_Stiffness` lookup is `np.array(p.get(...))`,
which accepts any value and is therefore omitted. -/
def buildPrefix (p : Params) : Except PyErr (ℤ × List ℚ) := do
  let _ ← reqNum p "Bridge_width"
  let _ ← getNum p "Bridge_skew" 0
  let gn ← reqInt p "girder_number"
  let _ ← reqNum p "girder_length"
  let _ ← reqNum p "girder_spacing"
  let _ ← getNum p "Left_Cantilever" 0
  let _ ← getNum p "Right_Cantilever" 0
  let _ ← getNum p "gravity" (-981 / 100)
  let eg1 ← getNumList p "E_girder1" []
  let _ ← getNumList p "E_girder2" []
  let _ ← getNumList p "E_deck1" []
  let _ ← getNumList p "E_deck2" []
  let _ ← getNumList p "thickness1" []
  let _ ← getNumList p "thickness2" []
  let _ ← getNum p "PE" 600
  let _ ← getNumList p "pave_thick" [80]
  let _ ← getNumList p "diaphragm1_Ec" []
  let _ ← getNumList p "diaphragm2_Ec" []
  pure (gn, eg1)

/-- The `self.params` reads at the top of `Analysis.girder`
(builder.py:73-80): all are `.get` calls with defaults, so they fail only
on a value of the wrong type; `tendon_horizontal_length` falls back to
`girder_length` and then to `0.0`. -/
def girderGets (p : Params) : Except PyErr Unit := do
  let _ ← getNum p "h1" 0
  let _ ← getNum p "h2" 0
  let _ ← getNum p "h3" 0
  let _ ← getNum p "h4" 0
  let _ ← getNum p "h5" 0
  let _ ← getNum p "b1" 0
  let _ ← getNum p "b2" 0
  let _ ← getNum p "b3" 0
  let _ ← getNum p "b4" 0
  let _ ← getNum p "b5" 0
  let _ ← getNum p "girder_H" 0
  let _ ← (match lookupParam p "tendon_horizontal_length" with
          | some v => pyFloat "tendon_horizontal_length" v
          | none => getNum p "girder_length" 0)
  let _ ← getNumList p "y_intercept_list" []
  let _ ← getNumList p "z_intercept_list" []
  let _ ← getNumList p "Ap_N" []
  let _ ← getNum p "Ag" 0
  pure ()

/-- One call of `Analysis.girder` (builder.py:69-214): after the parameter
reads and the pure `division` / `x_loc` / `y_loc` arithmetic
(builder.py:82-87), the body dereferences the unbound module globals in
source order — `yt3` (line 88), `Ep` (106), `z_coef_list` / `y_coef_list`
(178-179), `number_tendon` (194).  The solver-side node/section/element
construction is collapsed into `laterFailure`; it is unreachable because
the global lookups above always fail. -/
def girderCall (p : Params) : Except PyErr Unit := do
  let _ ← girderGets p
  let _ ← globalRef "yt3"
  let _ ← globalRef "Ep"
  let _ ← globalRef "z_coef_list"
  let _ ← globalRef "y_coef_list"
  let _ ← globalRef "number_tendon"
  throw .laterFailure

/-- The girder loop of `build_bridge_model` (builder.py:656-657): iteration
`i` evaluates the call argument `E_girder1[i-1]` (IndexError when the list
is too short) and then runs `Analysis.girder`. -/
def girderLoop (p : Params) (eg1 : List ℚ) : ℕ → ℕ → Except PyErr Unit
  | _, 0 => .ok ()
  | i, n + 1 => do
    let _ ← (match eg1.get? i with
            | some v => Except.ok v
            | none => Except.error PyErr.indexError)
    let _ ← girderCall p
    girderLoop p eg1 (i + 1) n

/-- Return object of a successful build (builder.py:40-45): a dataclass
with exactly the fields `analysis`, `params`, `ctx`. -/
structure BuiltModel where
  analysis : Unit
  params : Params
  ctx : List (String × List ℤ)

/-- The `build_bridge_model` function (builder.py:612-724): parameter
unpacking, then the girder loop.  The deck / barrier / diaphragm / spring
construction and rigid linking (builder.py:659-724) are collapsed into
`laterFailure`: with a positive girder count they are unreachable (the
girder loop always raises), and with a non-positive girder count the
source fails at `node_array[0]` (builder.py:667) or earlier. -/
def buildBridgeModel (p : Params) : Except PyErr BuiltModel := do
  let pr ← buildPrefix p
  let gn := pr.1
  let eg1 := pr.2
  if 1 ≤ gn then do
    let _ ← girderLoop p eg1 0 gn.toNat
    throw .laterFailure
  else
    throw .laterFailure

/-- Mesh division count (builder.py:83, 226, 319, 406, 672):
`int(L / self.m * 5)` with `self.m = 1000` and `L` in millimetres —
Python `int()` truncates toward zero. -/
def meshDivision (lmm : ℚ) : ℤ :=
  truncQ (lmm / 1000 * 5)

/-- Beam-element tags of one girder line (builder.py:207-211): one element
per `i in range(0, division)`, with the element tag equal to its start
node tag `1000 * g + i + 1`. -/
def girderElementTags (g : ℕ) (division : ℕ) : List ℤ :=
  (List.range division).map (fun i : ℕ => 1000 * (g : ℤ) + (i : ℤ) + 1)

/-- Lumped nodal masses of one girder line (builder.py:124-137): both
`mass_before` and `mass_after` hold `rho * Acol * L / division / 2` at
each of the `imax = division + 1` nodes with `rho = 2.5e-9 = 25/10^10`;
then `mass_before[-1] = 0`, `mass_after[0] = 0`, and `mass_all` is their
elementwise sum. -/
def girderLumpedMasses (acol lmm : ℚ) (division : ℕ) : List ℚ :=
  List.zipWith (· + ·)
    ((List.replicate (division + 1)
      (25 / 10 ^ 10 * acol * (lmm / (division : ℚ)) / 2)).set (division + 1 - 1) 0)
    ((List.replicate (division + 1)
      (25 / 10 ^ 10 * acol * (lmm / (division : ℚ)) / 2)).set 0 0)

/-- Substructure kinds whose node tags the builder generates by pure tag
arithmetic. -/
inductive Sub
  /-- Girder line `i`: tags `1000*i + j + 1` (builder.py:130). -/
  | girder (i : ℕ)
  /-- Deck band `s` (deck_number 1): tags `100000 + 1000*s + j + 1`
  (builder.py:338). -/
  | deck (s : ℕ)
  /-- Pavement band `s` (pave_number 3): tags `300000 + 1000*s + j + 1`
  (builder.py:245). -/
  | pavement (s : ℕ)
  /-- Barrier 1: tags `1000000 + 10000*1 + j + 1` (builder.py:426). -/
  | barrier
  /-- Diaphragm `n` of bridge 1: tags `100 + 10*n + i` for
  `i in range(1, 1 + nums_girder)` (builder.py:492). -/
  | diaphragm (n : ℕ)
  /-- Bearing support node of spring `k`: `10000000 + k` (builder.py:548). -/
  | springSupport (k : ℕ)
  /-- Bearing free node of spring `k`: `100000000 + k` (builder.py:549). -/
  | springFree (k : ℕ)
  deriving DecidableEq, Repr

/-- Node tags generated for one substructure, given the mesh division
count and the girder count. -/
def subTags (division gn : ℕ) : Sub → List ℤ
  | .girder i =>
    (List.range (division + 1)).map (fun j : ℕ => 1000 * (i : ℤ) + (j : ℤ) + 1)
  | .deck s =>
    (List.range (division + 1)).map (fun j : ℕ => 100000 + 1000 * (s : ℤ) + (j : ℤ) + 1)
  | .pavement s =>
    (List.range (division + 1)).map (fun j : ℕ => 300000 + 1000 * (s : ℤ) + (j : ℤ) + 1)
  | .barrier =>
    (List.range (division + 1)).map (fun j : ℕ => 1000000 + 10000 + (j : ℤ) + 1)
  | .diaphragm n =>
    (List.range gn).map (fun i : ℕ => 100 + 10 * (n : ℤ) + (i : ℤ) + 1)
  | .springSupport k => [10000000 + (k : ℤ)]
  | .springFree k => [100000000 + (k : ℤ)]

/-- Instance-index bounds realised by `build_bridge_model` for a model with
`gn` girders: girders `1..gn`, up to 100 deck and pavement bands, one
barrier, diaphragms `1..7` (two end diaphragms plus at most five
crossbeams, builder.py:667-679), springs `1..2*gn` (builder.py:681-683). -/
def validSub (gn : ℕ) : Sub → Prop
  | .girder i => 1 ≤ i ∧ i ≤ gn
  | .deck s => s ≤ 99
  | .pavement s => s ≤ 99
  | .barrier => True
  | .diaphragm n => 1 ≤ n ∧ n ≤ 7
  | .springSupport k => 1 ≤ k ∧ k ≤ 2 * gn
  | .springFree k => 1 ≤ k ∧ k ≤ 2 * gn

/-- A minimal parameter dict whose scalar required keys and non-empty
`E_girder1` list drive `build_bridge_model` all the way into the first
`Analysis.girder` call. -/
def reachGirderParams : Params :=
  [ ("Bridge_width", .num (25 / 2))
  , ("girder_number", .num 6)
  , ("girder_length", .num 29600)
  , ("girder_spacing", .num (52 / 25))
  , ("E_girder1", .numList [28000]) ]

/- ------------------------------------------------------------------
modal.py — `run_modal`
------------------------------------------------------------------ -/

/-- Attribute names of a `BuiltModel` instance (builder.py:40-45): the
dataclass has no methods, in particular no `static_analysis_load`. -/
def builtModelAttrs : List String := ["analysis", "params", "ctx"]

/-- Python attribute access on a `BuiltModel` instance. -/
def pyGetattrBuilt (a : String) : Except PyErr Unit :=
  if a ∈ builtModelAttrs then .ok () else .error (.attributeError a)

/-- The body of `run_modal` after the model build (modal.py:64-72): the
first statement is `bridge1.static_analysis_load(1, ...)` — an attribute
access on the returned `BuiltModel` dataclass.  The remaining sequence
(baseline static run, two half-load runs at the load nodes, dof-3 reads)
would produce `deflections = after - before`. -/
def runModalAfterBuild (_m : BuiltModel) (before after : List ℚ) :
    Except PyErr (List ℚ) := do
  let _ ← pyGetattrBuilt "static_analysis_load"
  pure (List.zipWith (· - ·) after before)

/-- The `run_modal` driver (modal.py:24-97): builds the model then probes
static deflections; `before`/`after` stand for the solver displacement
queries. -/
def runModal (p : Params) (before after : List ℚ) : Except PyErr (List ℚ) := do
  let m ← buildBridgeModel p
  runModalAfterBuild m before after

/- ------------------------------------------------------------------
moving_load.py — load interpolation, pruning, Rayleigh damping
------------------------------------------------------------------ -/

/-- Leftmost insertion point of `v` in a sorted coordinate list:
`np.searchsorted(x_g, v)` with the default left side (moving_load.py:123). -/
def searchsortedLeft : List ℚ → ℚ → ℕ
  | [], _ => 0
  | a :: rest, v => if v ≤ a then 0 else searchsortedLeft rest v + 1

/-- Bracket index `np.clip(searchsorted - 1, 0, len - 2)`
(moving_load.py:123-124); numpy clips to the lower bound first. -/
def bracketIdx (xs : List ℚ) (v : ℚ) : ℤ :=
  min (max ((searchsortedLeft xs v : ℤ) - 1) 0) ((xs.length : ℤ) - 2)

/-- In-place accumulation `hist[nd][it] += v` at one time index, with the
history restricted to that index (a map from node tag to load). -/
def updHist (h : ℤ → ℚ) (nd : ℤ) (v : ℚ) : ℤ → ℚ :=
  fun t => if t = nd then h t + v else h t

/-- One axle update of the load history at one time step
(moving_load.py:122-130): if the axle position lies within the span, find
the bracketing node pair, compute the interpolation fraction
`r = (x - xi) / (xj - xi)` and add `load*(1-r)` to the near node and
`load*r` to the far node. -/
def stepAxle (xg : List ℚ) (tags : List ℤ) (load xAxle : ℚ) (h : ℤ → ℚ) : ℤ → ℚ :=
  if xg.headD 0 ≤ xAxle ∧ xAxle ≤ xg.getLastD 0 then
    let idx := (bracketIdx xg xAxle).toNat
    let xi := xg.getD idx 0
    let xj := xg.getD (idx + 1) 0
    let ndi := tags.getD idx 0
    let ndj := tags.getD (idx + 1) 0
    let r := (xAxle - xi) / (xj - xi)
    updHist (updHist h ndi (load * (1 - r))) ndj (load * r)
  else h

/-- The pruning test `np.allclose(values, 0.0)` (moving_load.py:170) with
numpy defaults `rtol = 1e-5`, `atol = 1e-8`: against a zero reference the
tolerance collapses to `atol`. -/
def npAllcloseZero (values : List ℚ) : Bool :=
  values.all (fun v => decide (|v - 0| ≤ 1 / 10 ^ 8 + 1 / 10 ^ 5 * |(0 : ℚ)|))

/-- The `create_pathseries_from_history` generator (moving_load.py:168-177):
nodes whose history passes the allclose test are skipped; each surviving
node gets a Path time series tagged `1000*gid + nd` and a plain pattern
tagged `2000*gid + nd`. -/
def createPathSeries (history : List (ℤ × List ℚ)) (girderId : ℤ) :
    List (ℤ × ℤ × ℤ) :=
  (history.filter (fun nv => ! npAllcloseZero nv.2)).map
    (fun nv => (nv.1, 1000 * girderId + nv.1, 2000 * girderId + nv.1))

/-- Mode index for the second Rayleigh frequency,
`min(2, len(omega_list) - 1)` (moving_load.py:138). -/
def omegaIdx (n : ℕ) : ℕ := min 2 (n - 1)

/-- Rayleigh mass coefficient `alphaM = zeta * (2*w1*w2) / (w1 + w2)`
(moving_load.py:140). -/
def rayleighAlpha (zeta w1 w2 : ℚ) : ℚ := zeta * (2 * w1 * w2) / (w1 + w2)

/-- Rayleigh stiffness coefficient `betaK = 2 * zeta / (w1 + w2)`
(moving_load.py:141). -/
def rayleighBeta (zeta w1 w2 : ℚ) : ℚ := 2 * zeta / (w1 + w2)

/-- Damping setup from the circular frequencies `omega_list = sqrt(eigen)`
(moving_load.py:137-142): `omega1` is the first entry, `omega2` the entry
at `min(2, len - 1)`, and the pair `(alphaM, betaK)` is installed by
`ops.rayleigh(alphaM, 0.0, 0.0, betaK)`. -/
def rayleighFromOmegas (omegas : List ℚ) (zeta : ℚ) : ℚ × ℚ :=
  let w1 := omegas.getD 0 0
  let w2 := omegas.getD (omegaIdx omegas.length) 0
  (rayleighAlpha zeta w1 w2, rayleighBeta zeta w1 w2)

end BridgePsci

namespace BridgePsci

/- ------------------------------------------------------------------
Helper lemmas
------------------------------------------------------------------ -/

/-- The case2 parameter dict carries the bearing table rebuilt with
multiplier one half (config.py:156-159). -/
theorem getTable_case2 :
    getTable (paramsOf "case2") "Bearing_Stiffness" = bearingStiffness (1 / 2) := rfl

/-- The baseline parameter dict carries the default bearing table with
multiplier three tenths (config.py:49-52). -/
theorem getTable_baseline :
    getTable (paramsOf "baseline") "Bearing_Stiffness" = bearingStiffness (3 / 10) := rfl

/-- Entry access through a scaled row is scaling of the entry access. -/
theorem scaledRow_getD (row : List ℚ) (bm : ℚ) (c : ℕ) :
    (row.map (fun x => x * bm)).getD c 0 = row.getD c 0 * bm := by
  rw [List.getD_eq_getElem?_getD, List.getD_eq_getElem?_getD, List.getElem?_map]
  cases row[c]? <;> simp

/-- Rows 0-5 of the bearing table are the A1 rows scaled by the multiplier. -/
theorem bearing_entry_lt6 (bm : ℚ) (r c : ℕ) (hr : r < 6) :
    ((bearingStiffness bm).getD r []).getD c 0 = (A1rows.getD r []).getD c 0 * bm := by
  have hlen : r < (scaleTable A1rows bm).length := by
    simp only [scaleTable, List.length_map, A1rows]
    simp
    omega
  unfold bearingStiffness
  rw [List.getD_eq_getElem?_getD (scaleTable A1rows bm ++ A2rows) r,
    List.getElem?_append_left hlen]
  unfold scaleTable
  rw [List.getElem?_map]
  rw [List.getD_eq_getElem?_getD A1rows]
  cases h : A1rows[r]? with
  | none => simp
  | some row =>
    simp only [Option.map_some, Option.getD_some, List.getD_eq_getElem?_getD,
      List.getElem?_map]
    cases h2 : row[c]? <;> simp [h2]

/-- Rows 6-11 of the bearing table are the unscaled A2 rows, independent of
the multiplier. -/
theorem bearing_entry_ge6 (bm : ℚ) (r c : ℕ) (hr : 6 ≤ r) :
    ((bearingStiffness bm).getD r []).getD c 0 = (A2rows.getD (r - 6) []).getD c 0 := by
  have hlen : (scaleTable A1rows bm).length ≤ r := by
    simp only [scaleTable, List.length_map, A1rows]
    simp
    omega
  have hlen6 : (scaleTable A1rows bm).length = 6 := by
    simp [scaleTable, A1rows]
  unfold bearingStiffness
  rw [List.getD_eq_getElem?_getD (scaleTable A1rows bm ++ A2rows) r,
    List.getElem?_append_right hlen, hlen6,
    List.getD_eq_getElem?_getD A2rows]

/- ------------------------------------------------------------------
C1 — case2 bearing-stiffness table
------------------------------------------------------------------ -/

/-- C1 counterexample: the claim fails on the abutment-2 block.  Entry
(6,0) of the `case2` table equals the baseline entry 80000 unchanged, not
`baseline / 0.3 * 0.5 = 400000/3`: only the first six rows are scaled by
the bearing multiplier (config.py:50-51, 156-157). -/
theorem case2_bearing_row6_unscaled :
    bearingEntry "case2" 6 0 = 80000 ∧ bearingEntry "baseline" 6 0 = 80000 ∧
      bearingEntry "case2" 6 0 ≠ bearingEntry "baseline" 6 0 / (3 / 10) * (1 / 2) := by
  refine ⟨rfl, rfl, ?_⟩
  show (80000 : ℚ) ≠ 80000 / (3 / 10) * (1 / 2)
  norm_num

/-- C1 (amended): in the `make_params("case2")` bearing-stiffness table the
first six rows (abutment-1 block) equal the baseline entries divided by 0.3
and multiplied by 0.5, while rows 6-11 (abutment-2 block) are identical to
the baseline table. -/
theorem case2_bearing_table (r c : ℕ) (hr : r < 12) (hc : c < 6) :
    (r < 6 → bearingEntry "case2" r c =
      bearingEntry "baseline" r c / (3 / 10) * (1 / 2)) ∧
    (6 ≤ r → bearingEntry "case2" r c = bearingEntry "baseline" r c) := by
  constructor
  · intro h6
    unfold bearingEntry
    rw [getTable_case2, getTable_baseline, bearing_entry_lt6 _ _ _ h6,
      bearing_entry_lt6 _ _ _ h6, mul_div_assoc]
    norm_num
  · intro h6
    unfold bearingEntry
    rw [getTable_case2, getTable_baseline, bearing_entry_ge6 _ _ _ h6,
      bearing_entry_ge6 _ _ _ h6]

/-- C1 witness: the amended relation evaluated at row 0, column 2. -/
theorem case2_bearing_table_witness :
    bearingEntry "case2" 0 2 =
      bearingEntry "baseline" 0 2 / (3 / 10) * (1 / 2) :=
  (case2_bearing_table 0 2 (by norm_num) (by norm_num)).1 (by norm_num)

/- ------------------------------------------------------------------
C2 — build_bridge_model and the unbound builder globals
------------------------------------------------------------------ -/

/-- Helper: `Analysis.girder` fails resolving the unbound global `yt3` as
soon as its parameter reads succeed. -/
theorem girderCall_nameError (p : Params) (hg : girderGets p = .ok ()) :
    girderCall p = .error (.nameError "yt3") := by
  unfold girderCall
  rw [hg]
  rfl

/-- C2 (amended): whenever `build_bridge_model` reaches the first
`Analysis.girder` call — the five required keys convert, the optional
reads type-check, `girder_number >= 1` and `E_girder1` is non-empty — it
raises `NameError` on `yt3` (builder.py:88), because none of the notebook
globals `yt3`, `Ep`, `number_tendon`, `z_coef_list`, `y_coef_list`,
`girder1`, `girder_H` is bound in builder.py; no such call returns a
`BuiltModel`. -/
theorem build_girder_nameError (p : Params) (gn : ℤ) (eg1 : List ℚ)
    (hpre : buildPrefix p = .ok (gn, eg1)) (hgn : 1 ≤ gn)
    (hne : eg1 ≠ []) (hgets : girderGets p = .ok ()) :
    buildBridgeModel p = .error (.nameError "yt3") ∧
      "yt3" ∉ builderGlobals ∧ "Ep" ∉ builderGlobals ∧
      "number_tendon" ∉ builderGlobals ∧ "z_coef_list" ∉ builderGlobals ∧
      "y_coef_list" ∉ builderGlobals ∧ "girder1" ∉ builderGlobals ∧
      "girder_H" ∉ builderGlobals := by
  refine ⟨?_, by decide, by decide, by decide, by decide, by decide, by decide, by decide⟩
  obtain ⟨m, hm⟩ : ∃ m, gn.toNat = m + 1 := ⟨gn.toNat - 1, by omega⟩
  obtain ⟨a, t, rfl⟩ : ∃ a t, eg1 = a :: t := by
    cases eg1 with
    | nil => exact absurd rfl hne
    | cons a t => exact ⟨a, t, rfl⟩
  have h1 : buildBridgeModel p =
      (if 1 ≤ gn then
        (do
          let _ ← girderLoop p (a :: t) 0 gn.toNat
          throw PyErr.laterFailure : Except PyErr BuiltModel)
      else throw PyErr.laterFailure) := by
    unfold buildBridgeModel
    rw [hpre]
    exact rfl
  have h2 : girderLoop p (a :: t) 0 (m + 1) = .error (.nameError "yt3") := by
    unfold girderLoop
    rw [girderCall_nameError p hgets]
    exact rfl
  rw [h1, if_pos hgn, hm, show (do
      let _ ← girderLoop p (a :: t) 0 (m + 1)
      throw PyErr.laterFailure : Except PyErr BuiltModel) =
        girderLoop p (a :: t) 0 (m + 1) >>= fun _ => throw PyErr.laterFailure from rfl,
    h2]
  rfl

/-- C2 witness: a parameter dict with scalar required keys, six girders
and a one-entry `E_girder1` drives `build_bridge_model` into the `yt3`
`NameError`. -/
theorem build_girder_nameError_witness :
    buildPrefix reachGirderParams = .ok (6, [28000]) ∧
      buildBridgeModel reachGirderParams = .error (.nameError "yt3") := by
  constructor
  · rfl
  · exact (build_girder_nameError reachGirderParams 6 [28000] rfl (by norm_num)
      (by simp) rfl).1

/-- C2 counterexample: the claim is not true of every parameter dict — on
the repository's own `make_params("baseline")` output, `build_bridge_model`
raises `TypeError`, not `NameError`: `girder_spacing` is the list `[2.08]`
and `float(p['girder_spacing'])` (builder.py:623) rejects it before any
girder is built. -/
theorem build_baseline_not_nameError :
    buildBridgeModel (paramsOf "baseline") = .error (.typeError "girder_spacing") ∧
      ∀ s, buildBridgeModel (paramsOf "baseline") ≠ .error (.nameError s) := by
  refine ⟨rfl, ?_⟩
  intro s h
  rw [show buildBridgeModel (paramsOf "baseline") =
      .error (.typeError "girder_spacing") from rfl] at h
  exact PyErr.noConfusion (Except.error.inj h)

/- ------------------------------------------------------------------
C3 — run_modal
------------------------------------------------------------------ -/

/-- C3: `run_modal` cannot perform the static probing the spec describes.
On the repository's own baseline parameters the model build already raises
(`TypeError` on the list-valued `girder_spacing`), and independently of the
build, the first statement after it, `bridge1.static_analysis_load(...)`
(modal.py:64), is an `AttributeError` for every `BuiltModel`: the dataclass
only has the fields `analysis`, `params`, `ctx` (the call is missing the
`.analysis` indirection).  Hence no call of `run_modal` ever returns the
after-minus-before deflections. -/
theorem runModal_never_returns :
    runModal (paramsOf "baseline") [] [] = .error (.typeError "girder_spacing") ∧
      ∀ (m : BuiltModel) (before after : List ℚ),
        runModalAfterBuild m before after =
          .error (.attributeError "static_analysis_load") :=
  ⟨rfl, fun _ _ _ => rfl⟩

/- ------------------------------------------------------------------
C8 — mesh division count
------------------------------------------------------------------ -/

/-- C8 counterexample: the division count is `int()` truncation, not
rounding to the nearest integer.  For a span of 2180 mm the code computes
`int(10.9) = 10`, which is more than one half away from 10.9, so it is not
a nearest integer (the nearest is 11). -/
theorem meshDivision_not_nearest :
    meshDivision 2180 = 10 ∧
      1 / 2 < |(2180 : ℚ) / 1000 * 5 - (meshDivision 2180 : ℚ)| := by
  have h : meshDivision 2180 = 10 := by
    unfold meshDivision truncQ
    rw [if_pos (by norm_num)]
    norm_num
  refine ⟨h, ?_⟩
  rw [h]
  rw [show (2180 : ℚ) / 1000 * 5 - ((10 : ℤ) : ℚ) = 9 / 10 by push_cast; norm_num,
    abs_of_pos (by norm_num : (0 : ℚ) < 9 / 10)]
  norm_num

/-- C8 (amended): the number of beam elements per girder line (and per
deck/pavement longitudinal line) is `int(L/1000 * 5)`, i.e. the length in
metres times five truncated toward zero (equivalently its floor, since
spans are nonnegative); every such line has that division count plus one
nodes, and the girder beam-element loop emits exactly `division`
elements. -/
theorem meshDivision_floor (lmm : ℚ) (hL : 0 ≤ lmm) :
    meshDivision lmm = ⌊lmm / 1000 * 5⌋ ∧
      (∀ g gn, (subTags (meshDivision lmm).toNat gn (Sub.girder g)).length =
        (meshDivision lmm).toNat + 1) ∧
      (∀ s gn, (subTags (meshDivision lmm).toNat gn (Sub.deck s)).length =
        (meshDivision lmm).toNat + 1) ∧
      (∀ g, (girderElementTags g (meshDivision lmm).toNat).length =
        (meshDivision lmm).toNat) := by
  refine ⟨?_, ?_, ?_, ?_⟩
  · unfold meshDivision truncQ
    rw [if_pos (by positivity)]
  · intro g gn
    show ((List.range ((meshDivision lmm).toNat + 1)).map
        (fun j : ℕ => 1000 * (g : ℤ) + (j : ℤ) + 1)).length = (meshDivision lmm).toNat + 1
    rw [List.length_map, List.length_range]
  · intro s gn
    show ((List.range ((meshDivision lmm).toNat + 1)).map
        (fun j : ℕ => 100000 + 1000 * (s : ℤ) + (j : ℤ) + 1)).length =
      (meshDivision lmm).toNat + 1
    rw [List.length_map, List.length_range]
  · intro g
    show ((List.range (meshDivision lmm).toNat).map
        (fun i : ℕ => 1000 * (g : ℤ) + (i : ℤ) + 1)).length = (meshDivision lmm).toNat
    rw [List.length_map, List.length_range]

/-- C8 witness: the default 29600 mm span gives the floor value 148 and
149 nodes per girder line. -/
theorem meshDivision_floor_witness :
    meshDivision 29600 = ⌊(29600 : ℚ) / 1000 * 5⌋ ∧
      (subTags (meshDivision 29600).toNat 6 (Sub.girder 1)).length =
        (meshDivision 29600).toNat + 1 :=
  ⟨(meshDivision_floor 29600 (by norm_num)).1,
    (meshDivision_floor 29600 (by norm_num)).2.1 1 6⟩

/- ------------------------------------------------------------------
C9 — girder lumped masses
------------------------------------------------------------------ -/

/-- Helper: setting the last entry of a constant list to zero. -/
theorem replicate_set_last (d : ℕ) (x : ℚ) :
    (List.replicate (d + 1) x).set d 0 = List.replicate d x ++ [0] := by
  induction d with
  | zero => rfl
  | succ k ih =>
    rw [List.replicate_succ (n := k + 1), List.set_cons_succ, ih,
      List.replicate_succ, List.cons_append]

/-- Helper: elementwise sum of two constant lists. -/
theorem zipWith_add_replicate (d : ℕ) (x y : ℚ) :
    List.zipWith (· + ·) (List.replicate d x) (List.replicate d y) =
      List.replicate d (x + y) := by
  induction d with
  | zero => rfl
  | succ k ih => simp [List.replicate_succ, ih]

/-- Helper: the assembled `mass_all` list in closed form — half tributary
mass at both ends, full tributary mass at the interior nodes. -/
theorem girderLumpedMasses_eq (acol lmm : ℚ) (d : ℕ) :
    girderLumpedMasses acol lmm (d + 1) =
      25 / 10 ^ 10 * acol * (lmm / ((d + 1 : ℕ) : ℚ)) / 2 ::
        (List.replicate d (25 / 10 ^ 10 * acol * (lmm / ((d + 1 : ℕ) : ℚ)) / 2 +
            25 / 10 ^ 10 * acol * (lmm / ((d + 1 : ℕ) : ℚ)) / 2) ++
          [25 / 10 ^ 10 * acol * (lmm / ((d + 1 : ℕ) : ℚ)) / 2]) := by
  unfold girderLumpedMasses
  set h := 25 / 10 ^ 10 * acol * (lmm / ((d + 1 : ℕ) : ℚ)) / 2 with hh
  have h1 : (List.replicate (d + 1 + 1) h).set (d + 1 + 1 - 1) 0 =
      h :: (List.replicate d h ++ [0]) := by
    rw [show d + 1 + 1 - 1 = d + 1 from rfl, replicate_set_last,
      List.replicate_succ, List.cons_append]
  have h2 : (List.replicate (d + 1 + 1) h).set 0 0 =
      0 :: (List.replicate d h ++ [h]) := by
    rw [List.replicate_succ, List.set_cons_zero, List.replicate_succ']
  rw [h1, h2, List.zipWith_cons_cons,
    List.zipWith_append _ _ _ _ _ (by simp), zipWith_add_replicate]
  norm_num

/-- C9 counterexample: the end nodes do not receive zero mass.  With
`rho * Acol = 1` (`Acol = 4e8`), a 2000 mm span and the resulting mesh
division 10, both end nodes of `mass_all` carry 100 N·s²/mm, not 0. -/
theorem girder_end_mass_nonzero :
    (girderLumpedMasses (4 * 10 ^ 8) 2000 (meshDivision 2000).toNat).headD 0 = 100 ∧
      (girderLumpedMasses (4 * 10 ^ 8) 2000 (meshDivision 2000).toNat).getLastD 0 = 100 ∧
      (100 : ℚ) ≠ 0 := by
  have hd : (meshDivision 2000).toNat = 10 := by
    have : meshDivision 2000 = 10 := by
      unfold meshDivision truncQ
      rw [if_pos (by norm_num)]
      norm_num
    rw [this]
    rfl
  have h10 : girderLumpedMasses (4 * 10 ^ 8) 2000 10 =
      girderLumpedMasses (4 * 10 ^ 8) 2000 (9 + 1) := rfl
  rw [hd, h10, girderLumpedMasses_eq]
  refine ⟨?_, ?_, by norm_num⟩
  · rw [List.headD_cons]
    push_cast
    norm_num
  · rw [List.getLastD_cons, List.getLastD_concat]
    push_cast
    norm_num

/-- C9 (amended): every node adjacent to a beam element receives
`rho*Ag*(L/division)/2` per adjacent element, so interior nodes carry
`rho*Ag*(L/division)` and each of the two end nodes carries
`rho*Ag*(L/division)/2` — not zero; the masses sum to `rho*Ag*L`. -/
theorem girder_mass_distribution (acol lmm : ℚ) (div : ℕ) (hdiv : 1 ≤ div) :
    (girderLumpedMasses acol lmm div).length = div + 1 ∧
    (girderLumpedMasses acol lmm div).headD 0 =
      25 / 10 ^ 10 * acol * (lmm / (div : ℚ)) / 2 ∧
    (girderLumpedMasses acol lmm div).getLastD 0 =
      25 / 10 ^ 10 * acol * (lmm / (div : ℚ)) / 2 ∧
    (∀ j, 0 < j → j < div →
      (girderLumpedMasses acol lmm div).getD j 0 =
        25 / 10 ^ 10 * acol * (lmm / (div : ℚ))) ∧
    (girderLumpedMasses acol lmm div).sum = 25 / 10 ^ 10 * acol * lmm := by
  obtain ⟨d, rfl⟩ : ∃ d, div = d + 1 := ⟨div - 1, by omega⟩
  rw [girderLumpedMasses_eq]
  refine ⟨by simp, rfl, ?_, ?_, ?_⟩
  · rw [List.getLastD_cons, List.getLastD_concat]
  · intro j hj0 hjd
    obtain ⟨k, rfl⟩ : ∃ k, j = k + 1 := ⟨j - 1, by omega⟩
    have hk : k < d := by omega
    rw [List.getD_cons_succ, List.getD_eq_getElem?_getD,
      List.getElem?_append_left (by simpa using hk), List.getElem?_replicate_of_lt hk]
    simp

  · rw [List.sum_cons, List.sum_append, List.sum_replicate, List.sum_cons,
      List.sum_nil, nsmul_eq_mul]
    have hne : ((d + 1 : ℕ) : ℚ) ≠ 0 := by positivity
    field_simp
    ring

/-- C9 witness: the amended mass distribution evaluated on a concrete
girder line (`Acol = 4e8`, span 2000 mm, division 10): total lumped mass
equals `rho*Ag*L`. -/
theorem girder_mass_distribution_witness :
    (girderLumpedMasses (4 * 10 ^ 8) 2000 10).sum =
      25 / 10 ^ 10 * (4 * 10 ^ 8) * 2000 :=
  (girder_mass_distribution (4 * 10 ^ 8) 2000 10 (by norm_num)).2.2.2.2

/- ------------------------------------------------------------------
Helper lemmas for the moving-load bracket search
------------------------------------------------------------------ -/

/-- Helper: the left insertion point of an element already in a strictly
sorted list is its index. -/
theorem searchsortedLeft_hit :
    ∀ (xs : List ℚ) (k : ℕ) (v : ℚ), xs.Sorted (· < ·) →
      xs.get? k = some v → searchsortedLeft xs v = k
  | [], k, v, _, h => by simp at h
  | a :: rest, 0, v, _, h => by
    rw [List.get?_cons_zero, Option.some_inj] at h
    subst h
    simp [searchsortedLeft]
  | a :: rest, k + 1, v, hs, h => by
    rw [List.get?_cons_succ] at h
    have hmem : v ∈ rest := List.get?_mem h
    have ha : a < v := (List.pairwise_cons.mp hs).1 v hmem
    show (if v ≤ a then 0 else searchsortedLeft rest v + 1) = k + 1
    rw [if_neg (not_le.mpr ha),
      searchsortedLeft_hit rest k v (List.pairwise_cons.mp hs).2 h]

/-- Helper: the left insertion point of a value strictly between two
adjacent entries of a strictly sorted list is the upper index. -/
theorem searchsortedLeft_between :
    ∀ (xs : List ℚ) (i : ℕ) (xi xj v : ℚ), xs.Sorted (· < ·) →
      xs.get? i = some xi → xs.get? (i + 1) = some xj →
      xi < v → v ≤ xj → searchsortedLeft xs v = i + 1
  | [], i, xi, xj, v, _, h, _, _, _ => by simp at h
  | a :: rest, 0, xi, xj, v, _, hxi, hxj, h1, h2 => by
    rw [List.get?_cons_zero, Option.some_inj] at hxi
    rw [List.get?_cons_succ] at hxj
    subst hxi
    show (if v ≤ a then 0 else searchsortedLeft rest v + 1) = 0 + 1
    rw [if_neg (not_le.mpr h1)]
    cases rest with
    | nil => simp at hxj
    | cons b rest2 =>
      rw [List.get?_cons_zero, Option.some_inj] at hxj
      show (if v ≤ b then 0 else searchsortedLeft rest2 v + 1) + 1 = 0 + 1
      rw [if_pos (by rw [hxj]; exact h2)]
  | a :: rest, i + 1, xi, xj, v, hs, hxi, hxj, h1, h2 => by
    rw [List.get?_cons_succ] at hxi hxj
    have hmem : xi ∈ rest := List.get?_mem hxi
    have ha : a < xi := (List.pairwise_cons.mp hs).1 xi hmem
    show (if v ≤ a then 0 else searchsortedLeft rest v + 1) = i + 1 + 1
    rw [if_neg (not_le.mpr (lt_trans ha h1)),
      searchsortedLeft_between rest i xi xj v (List.pairwise_cons.mp hs).2 hxi hxj h1 h2]

/-- Helper: strict monotonicity of `getD` on a strictly sorted list. -/
theorem sorted_getD_lt (xs : List ℚ) (hs : xs.Sorted (· < ·)) (i j : ℕ)
    (hij : i < j) (hj : j < xs.length) : xs.getD i 0 < xs.getD j 0 := by
  have hi : i < xs.length := lt_trans hij hj
  rw [List.getD_eq_getElem?_getD, List.getD_eq_getElem?_getD,
    List.getElem?_eq_getElem hi, List.getElem?_eq_getElem hj]
  exact List.pairwise_iff_get.mp hs ⟨i, hi⟩ ⟨j, hj⟩ hij

/-- Helper: monotonicity of `getD` on a strictly sorted list. -/
theorem sorted_getD_le (xs : List ℚ) (hs : xs.Sorted (· < ·)) (i j : ℕ)
    (hij : i ≤ j) (hj : j < xs.length) : xs.getD i 0 ≤ xs.getD j 0 := by
  rcases lt_or_eq_of_le hij with h | h
  · exact le_of_lt (sorted_getD_lt xs hs i j h hj)
  · rw [h]

/-- Helper: `headD` of a non-empty list through `getD`. -/
theorem headD_eq_getD (xs : List ℚ) (h : xs ≠ []) : xs.headD 0 = xs.getD 0 0 := by
  cases xs with
  | nil => exact absurd rfl h
  | cons a l => rfl

/-- Helper: `getLastD` of a non-empty list through `getD`. -/
theorem getLastD_eq_getD (xs : List ℚ) (h : xs ≠ []) :
    xs.getLastD 0 = xs.getD (xs.length - 1) 0 := by
  induction xs with
  | nil => exact absurd rfl h
  | cons a l ih =>
    cases l with
    | nil => rfl
    | cons b l2 =>
      rw [List.getLastD_cons, show (b :: l2).getLastD a = (b :: l2).getLastD 0 from by
        rw [List.getLastD_cons, List.getLastD_cons], ih (by simp)]
      rfl

/-- Helper: the clipped bracket index of a value strictly inside an
adjacent pair lands on the pair's lower index. -/
theorem bracketIdx_between (xs : List ℚ) (i : ℕ) (xi xj v : ℚ)
    (hs : xs.Sorted (· < ·)) (hxi : xs.get? i = some xi)
    (hxj : xs.get? (i + 1) = some xj) (h1 : xi < v) (h2 : v ≤ xj) :
    (bracketIdx xs v).toNat = i := by
  have hss := searchsortedLeft_between xs i xi xj v hs hxi hxj h1 h2
  have hlen : i + 1 < xs.length := (List.get?_eq_some.mp hxj).1
  unfold bracketIdx
  rw [hss]
  omega

/-- Helper: value of `updHist` composition at a point. -/
theorem updHist_updHist (h : ℤ → ℚ) (ndi ndj : ℤ) (w1 w2 : ℚ) (t : ℤ) :
    updHist (updHist h ndi w1) ndj w2 t =
      h t + (if t = ndi then w1 else 0) + (if t = ndj then w2 else 0) := by
  unfold updHist
  split_ifs <;> ring

/-- Helper: the in-range branch of `stepAxle` in closed form. -/
theorem stepAxle_pos (xg : List ℚ) (tags : List ℤ) (load v : ℚ) (h : ℤ → ℚ)
    (hc : xg.headD 0 ≤ v ∧ v ≤ xg.getLastD 0) (t : ℤ) :
    stepAxle xg tags load v h t =
      h t +
        (if t = tags.getD (bracketIdx xg v).toNat 0 then
          load * (1 - (v - xg.getD (bracketIdx xg v).toNat 0) /
            (xg.getD ((bracketIdx xg v).toNat + 1) 0 - xg.getD (bracketIdx xg v).toNat 0))
        else 0) +
        (if t = tags.getD ((bracketIdx xg v).toNat + 1) 0 then
          load * ((v - xg.getD (bracketIdx xg v).toNat 0) /
            (xg.getD ((bracketIdx xg v).toNat + 1) 0 - xg.getD (bracketIdx xg v).toNat 0))
        else 0) := by
  unfold stepAxle
  rw [if_pos hc]
  exact updHist_updHist h _ _ _ _ t

/- ------------------------------------------------------------------
C4 — interpolation weights conserve the axle load
------------------------------------------------------------------ -/

/-- C4: for an axle position strictly between two adjacent girder nodes of
a strictly increasing coordinate line, the interpolation weights `1-r` and
`r` sum to one, the two per-step contributions sum to the axle load, every
other node receives nothing, and the update is additive, so simultaneous
axles accumulate by addition. -/
theorem movingLoad_weight_conservation (xg : List ℚ) (tags : List ℤ)
    (load v xi xj : ℚ) (i : ℕ) (hs : xg.Sorted (· < ·))
    (hnd : tags.Nodup) (hlen : tags.length = xg.length)
    (hxi : xg.get? i = some xi) (hxj : xg.get? (i + 1) = some xj)
    (h1 : xi < v) (h2 : v < xj) :
    (1 - (v - xi) / (xj - xi)) + (v - xi) / (xj - xi) = 1 ∧
    load * (1 - (v - xi) / (xj - xi)) + load * ((v - xi) / (xj - xi)) = load ∧
    (∀ h t, stepAxle xg tags load v h t = h t + stepAxle xg tags load v (fun _ => 0) t) ∧
    stepAxle xg tags load v (fun _ => 0) (tags.getD i 0) +
      stepAxle xg tags load v (fun _ => 0) (tags.getD (i + 1) 0) = load ∧
    (∀ t, t ≠ tags.getD i 0 → t ≠ tags.getD (i + 1) 0 →
      stepAxle xg tags load v (fun _ => 0) t = 0) := by
  have hleni : i + 1 < xg.length := (List.get?_eq_some.mp hxj).1
  have hne : xg ≠ [] := by
    intro hnil
    rw [hnil] at hxi
    simp at hxi
  have hidx := bracketIdx_between xg i xi xj v hs hxi hxj h1 (le_of_lt h2)
  have hgdi : xg.getD i 0 = xi := by
    rw [List.getD_eq_getElem?_getD, ← List.get?_eq_getElem?, hxi]
    rfl
  have hgdj : xg.getD (i + 1) 0 = xj := by
    rw [List.getD_eq_getElem?_getD, ← List.get?_eq_getElem?, hxj]
    rfl
  have hcond : xg.headD 0 ≤ v ∧ v ≤ xg.getLastD 0 := by
    constructor
    · rw [headD_eq_getD xg hne]
      have hle : xg.getD 0 0 ≤ xg.getD i 0 :=
        sorted_getD_le xg hs 0 i (by omega) (by omega)
      rw [hgdi] at hle
      exact le_trans hle (le_of_lt h1)
    · rw [getLastD_eq_getD xg hne]
      have hle2 : xg.getD (i + 1) 0 ≤ xg.getD (xg.length - 1) 0 :=
        sorted_getD_le xg hs (i + 1) (xg.length - 1) (by omega) (by omega)
      rw [hgdj] at hle2
      exact le_trans (le_of_lt h2) hle2
  have hstep := fun (h : ℤ → ℚ) (t : ℤ) => stepAxle_pos xg tags load v h hcond t
  have hndij : tags.getD i 0 ≠ tags.getD (i + 1) 0 := by
    have hti : i < tags.length := by omega
    have htj : i + 1 < tags.length := by omega
    rw [List.getD_eq_getElem?_getD, List.getD_eq_getElem?_getD,
      List.getElem?_eq_getElem hti, List.getElem?_eq_getElem htj]
    intro hcontra
    have := List.nodup_iff_injective_get.mp hnd
      (show tags.get ⟨i, hti⟩ = tags.get ⟨i + 1, htj⟩ from hcontra)
    simp at this
  refine ⟨by ring, by ring, ?_, ?_, ?_⟩
  · intro h t
    rw [hstep h t, hstep (fun _ => 0) t]
    ring
  · rw [hstep (fun _ => 0) (tags.getD i 0), hstep (fun _ => 0) (tags.getD (i + 1) 0),
      hidx, hgdi, hgdj, if_pos rfl, if_neg hndij, if_neg (Ne.symm hndij), if_pos rfl]
    ring
  · intro t hti htj
    rw [hstep (fun _ => 0) t, hidx, if_neg hti, if_neg htj]
    ring

/-- C4 witness: a 7 kN axle at position 4 between the nodes at 0 and 10 of
the line `[0, 10, 20]` contributes weights summing to the full load. -/
theorem movingLoad_weight_conservation_witness :
    stepAxle [0, 10, 20] [11, 12, 13] 7 4 (fun _ => 0) ((11 : ℤ)) +
      stepAxle [0, 10, 20] [11, 12, 13] 7 4 (fun _ => 0) ((12 : ℤ)) = 7 := by
  have h := movingLoad_weight_conservation [0, 10, 20] [11, 12, 13] 7 4 0 10 0
    (by decide) (by decide) (by decide) (by decide) (by decide)
    (by norm_num) (by norm_num)
  simpa using h.2.2.2.1

/- ------------------------------------------------------------------
C5 — axle position coincident with a node
------------------------------------------------------------------ -/

/-- C5: when the axle position equals a node coordinate of the strictly
increasing line (interior or either end), the entire load goes to the
coincident node and the other bracket node receives weight zero; and for
every position within the span the clipping of the bracket index into
`[0, len-2]` keeps the bracket width strictly positive, so the
interpolation division is well defined. -/
theorem movingLoad_node_hit (xg : List ℚ) (tags : List ℤ) (load v : ℚ)
    (k : ℕ) (hs : xg.Sorted (· < ·)) (h2le : 2 ≤ xg.length)
    (hv : xg.get? k = some v) :
    (∀ h t, stepAxle xg tags load v h t =
      h t + (if t = tags.getD k 0 then load else 0)) ∧
    (∀ w, xg.headD 0 ≤ w → w ≤ xg.getLastD 0 →
      xg.getD (bracketIdx xg w).toNat 0 < xg.getD ((bracketIdx xg w).toNat + 1) 0) := by
  have hk : k < xg.length := (List.get?_eq_some.mp hv).1
  have hne : xg ≠ [] := by
    intro h
    rw [h] at hv
    simp at hv
  have hss : searchsortedLeft xg v = k := searchsortedLeft_hit xg k v hs hv
  have hgdk : xg.getD k 0 = v := by
    rw [List.getD_eq_getElem?_getD, ← List.get?_eq_getElem?, hv]
    rfl
  have hcond : xg.headD 0 ≤ v ∧ v ≤ xg.getLastD 0 := by
    constructor
    · rw [headD_eq_getD xg hne]
      have hle := sorted_getD_le xg hs 0 k (by omega) hk
      rw [hgdk] at hle
      exact hle
    · rw [getLastD_eq_getD xg hne]
      have hle := sorted_getD_le xg hs k (xg.length - 1) (by omega) (by omega)
      rw [hgdk] at hle
      exact hle
  constructor
  · intro h t
    rw [stepAxle_pos xg tags load v h hcond t]
    rcases Nat.eq_zero_or_pos k with hk0 | hkpos
    · subst hk0
      have hidx : (bracketIdx xg v).toNat = 0 := by
        unfold bracketIdx
        rw [hss]
        omega
      rw [hidx, hgdk]
      simp
    · obtain ⟨m, rfl⟩ : ∃ m, k = m + 1 := ⟨k - 1, by omega⟩
      have hidx : (bracketIdx xg v).toNat = m := by
        unfold bracketIdx
        rw [hss]
        omega
      rw [hidx, hgdk]
      have hlt : xg.getD m 0 < v := by
        have := sorted_getD_lt xg hs m (m + 1) (by omega) hk
        rw [hgdk] at this
        exact this
      have hr : (v - xg.getD m 0) / (v - xg.getD m 0) = 1 :=
        div_self (sub_ne_zero.mpr (ne_of_gt hlt))
      rw [hr]
      simp
  · intro w hw1 hw2
    have hble : bracketIdx xg w ≤ (xg.length : ℤ) - 2 := min_le_right _ _
    exact sorted_getD_lt xg hs _ _ (Nat.lt_succ_self _) (by omega)

/-- C5 witness: a 9 kN axle exactly at the interior node 10 of the line
`[0, 10, 20]` puts the whole load on the coincident node's tag. -/
theorem movingLoad_node_hit_witness :
    stepAxle [0, 10, 20] [11, 12, 13] 9 10 (fun _ => 0) ((12 : ℤ)) = 9 := by
  have h := movingLoad_node_hit [0, 10, 20] [11, 12, 13] 9 10 1
    (by decide) (by decide) (by decide)
  simpa using h.1 (fun _ => 0) 12

/- ------------------------------------------------------------------
C6 — pruning of node load histories
------------------------------------------------------------------ -/

/-- C6 counterexample: a node whose history holds the nonzero sample
`1e-9` is pruned — `np.allclose` comparison against zero uses the absolute
tolerance `1e-8`, not exact equality, so no Path series or pattern is
created for it. -/
theorem pathSeries_prunes_nonzero_sample :
    ((1 : ℚ) / 10 ^ 9 ≠ 0) ∧
      createPathSeries [((3005 : ℤ), [1 / 10 ^ 9])] 3 = [] := by
  refine ⟨by norm_num, ?_⟩
  have hall : npAllcloseZero [1 / 10 ^ 9] = true := by
    unfold npAllcloseZero
    rw [List.all_eq_true]
    intro x hx
    rw [List.mem_singleton] at hx
    subst hx
    rw [decide_eq_true_iff, sub_zero, abs_zero, mul_zero, add_zero,
      abs_of_pos (show (0 : ℚ) < 1 / 10 ^ 9 by norm_num)]
    norm_num
  simp only [createPathSeries, List.filter_cons, List.filter_nil, hall,
    Bool.not_true, Bool.false_eq_true, if_false, List.map_nil]

/-- C6 (amended): `create_pathseries_from_history` submits a node's Path
series and load pattern iff some history sample exceeds the `np.allclose`
absolute tolerance `1e-8` in magnitude; histories that are exactly zero
throughout are always pruned, but nonzero histories within the tolerance
are pruned as well. -/
theorem pathSeries_pruning (values : List ℚ) (nd gid : ℤ) :
    ((∀ x ∈ values, x = 0) → createPathSeries [(nd, values)] gid = []) ∧
    (npAllcloseZero values = false ↔ ∃ x ∈ values, 1 / 10 ^ 8 < |x|) ∧
    createPathSeries [(nd, values)] gid =
      (if npAllcloseZero values then []
       else [(nd, 1000 * gid + nd, 2000 * gid + nd)]) := by
  have hiff2 : npAllcloseZero values = true ↔ ∀ x ∈ values, |x| ≤ 1 / 10 ^ 8 := by
    unfold npAllcloseZero
    rw [List.all_eq_true]
    constructor
    · intro h x hx
      have := h x hx
      rw [decide_eq_true_iff] at this
      simpa using this
    · intro h x hx
      rw [decide_eq_true_iff]
      simpa using h x hx
  have hiff : npAllcloseZero values = false ↔ ∃ x ∈ values, 1 / 10 ^ 8 < |x| := by
    rw [← Bool.not_eq_true, hiff2]
    push_neg
    rfl
  refine ⟨?_, hiff, ?_⟩
  · intro hz
    have hall : npAllcloseZero values = true :=
      hiff2.mpr (fun x hx => by rw [hz x hx]; norm_num)
    simp [createPathSeries, hall]
  · cases hb : npAllcloseZero values with
    | true => simp [createPathSeries, hb]
    | false => simp [createPathSeries, hb]

/-- C6 witness: an exactly zero one-sample history is pruned. -/
theorem pathSeries_pruning_witness :
    createPathSeries [((7 : ℤ), [0])] 3 = [] :=
  (pathSeries_pruning [0] 7 3).1 (by simp)

/- ------------------------------------------------------------------
C7 — Rayleigh damping coefficients
------------------------------------------------------------------ -/

/-- C7: given circular frequencies that are the square roots of the
ordered eigenvalues, the damping setup selects `omega1` as the root of the
first eigenvalue and `omega2` as the root of the third (or of the last
available one when fewer than three were extracted) and produces
`alphaM = zeta*2*w1*w2/(w1+w2)` and `betaK = 2*zeta/(w1+w2)`; both vanish
at `zeta = 0`. -/
theorem rayleigh_coefficients (ev omegas : List ℚ) (zeta : ℚ)
    (hlen : omegas.length = ev.length) (h1 : 1 ≤ ev.length)
    (hsq : ∀ i, i < ev.length →
      0 ≤ omegas.getD i 0 ∧ (omegas.getD i 0) ^ 2 = ev.getD i 0) :
    ((omegas.getD 0 0) ^ 2 = ev.getD 0 0 ∧ 0 ≤ omegas.getD 0 0) ∧
    (3 ≤ ev.length → omegaIdx omegas.length = 2) ∧
    (ev.length < 3 → omegaIdx omegas.length = ev.length - 1) ∧
    (omegas.getD (omegaIdx omegas.length) 0) ^ 2 =
      ev.getD (omegaIdx omegas.length) 0 ∧
    rayleighFromOmegas omegas zeta =
      (zeta * (2 * omegas.getD 0 0 * omegas.getD (omegaIdx omegas.length) 0) /
          (omegas.getD 0 0 + omegas.getD (omegaIdx omegas.length) 0),
        2 * zeta / (omegas.getD 0 0 + omegas.getD (omegaIdx omegas.length) 0)) ∧
    (zeta = 0 → rayleighFromOmegas omegas zeta = (0, 0)) := by
  have h0 := hsq 0 (by omega)
  have hidxlt : omegaIdx omegas.length < ev.length := by
    unfold omegaIdx
    omega
  have hsel := hsq (omegaIdx omegas.length) hidxlt
  refine ⟨⟨h0.2, h0.1⟩, ?_, ?_, hsel.2, rfl, ?_⟩
  · intro h3
    unfold omegaIdx
    omega
  · intro h3
    unfold omegaIdx
    omega
  · intro hz
    subst hz
    unfold rayleighFromOmegas rayleighAlpha rayleighBeta
    simp

/-- C7 witness: eigenvalues `[4, 9, 25]` with roots `[2, 3, 5]` and
`zeta = 1/2` give the Rayleigh pair built from the first and third
frequencies. -/
theorem rayleigh_coefficients_witness :
    rayleighFromOmegas [2, 3, 5] (1 / 2) =
      ((1 : ℚ) / 2 * (2 * 2 * 5) / (2 + 5), 2 * (1 / 2) / (2 + 5)) := by
  have h := rayleigh_coefficients [4, 9, 25] [2, 3, 5] (1 / 2) rfl (by norm_num)
    (by
      intro i hi
      have h3 : i < 3 := by simpa using hi
      interval_cases i <;>
        exact ⟨by norm_num [List.getD_cons_zero, List.getD_cons_succ],
          by norm_num [List.getD_cons_zero, List.getD_cons_succ]⟩)
  have h6 := h.2.2.2.2.1
  simpa [omegaIdx] using h6

/- ------------------------------------------------------------------
C10 — tag-interval disjointness
------------------------------------------------------------------ -/

/-- C10 counterexample: with twelve girders (allowed by the claim) and the
default 29600 mm span, the diaphragm tag arithmetic collides inside the
claimed-valid region: node tag 122 is generated both by diaphragm 1
(girder 12: `100 + 10*1 + 12`) and by diaphragm 2 (girder 2:
`100 + 10*2 + 2`), and no build-time check exists to detect it. -/
theorem tag_collision_girder12 :
    (122 : ℤ) ∈ subTags (meshDivision 29600).toNat 12 (Sub.diaphragm 1) ∧
      (122 : ℤ) ∈ subTags (meshDivision 29600).toNat 12 (Sub.diaphragm 2) ∧
      Sub.diaphragm 1 ≠ Sub.diaphragm 2 := by
  have hd : (meshDivision 29600).toNat = 148 := by
    have h : meshDivision 29600 = 148 := by
      unfold meshDivision truncQ
      rw [if_pos (by norm_num)]
      norm_num
    rw [h]
    rfl
  rw [hd]
  refine ⟨?_, ?_, by decide⟩ <;> decide

/-- C10 (amended): the node-tag families are pairwise disjoint only on a
narrower region than claimed — girder count at most ten (eleven or twelve
girders make distinct diaphragms collide) and mesh division at most 999
(a longer span makes adjacent girder ranges collide); within that region
girders, deck bands, pavement bands, the barrier, diaphragms and the two
bearing-spring node families never share a tag.  The builder never checks
this: the tag arithmetic is recomputed at each call site. -/
theorem tag_intervals_disjoint (div gn : ℕ) (hdiv1 : 1 ≤ div)
    (hdiv : div ≤ 999) (hgn : gn ≤ 10) (a b : Sub)
    (ha : validSub gn a) (hb : validSub gn b) (hne : a ≠ b) (t : ℤ)
    (hta : t ∈ subTags div gn a) : t ∉ subTags div gn b := by
  intro htb
  cases a <;> cases b <;>
    simp only [subTags, validSub, List.mem_map, List.mem_range,
      List.mem_singleton, ne_eq, Sub.girder.injEq, Sub.deck.injEq,
      Sub.pavement.injEq, Sub.diaphragm.injEq, Sub.springSupport.injEq,
      Sub.springFree.injEq, not_true_eq_false] at ha hb hne hta htb <;>
    first
    | exact hne
    | (obtain ⟨j, hj, hje⟩ := hta
       first
       | (obtain ⟨j2, hj2, hje2⟩ := htb
          omega)
       | omega)

/-- C10 witness: girder 3 and deck band 0 are disjoint at the default mesh
(division 148, six girders): tag 3050 lies in the girder range only. -/
theorem tag_intervals_disjoint_witness :
    (3050 : ℤ) ∈ subTags 148 6 (Sub.girder 3) ∧
      (3050 : ℤ) ∉ subTags 148 6 (Sub.deck 0) :=
  ⟨by decide,
    tag_intervals_disjoint 148 6 (by norm_num) (by norm_num) (by norm_num)
      (Sub.girder 3) (Sub.deck 0)
      (show 1 ≤ 3 ∧ 3 ≤ 6 by constructor <;> norm_num)
      (show 0 ≤ 99 by norm_num) (by decide) 3050 (by decide)⟩

end BridgePsci
